import Mathlib

/-!
Shallow embedding of the QuickJS sandbox bridge
(src/native/quickjs/src/QuickJSSandboxJSI.cpp) for verification of its
natural-language specification.

Modelling conventions:
- jsi::Value (host side) and QuickJS JSValue (sandbox side) become the
  inductive types JSIVal and QJSVal.
- IEEE-754 double payloads are modelled as exact rationals: the bridge never
  performs floating-point arithmetic, it only stores the double with
  JS_NewFloat64 and reads it back with JS_ToFloat64, so the payload crosses
  bit-for-bit and any exact carrier is faithful.
- QuickJS canonicalizes a double that is bit-exactly an int32 into a
  JS_TAG_INT value inside JS_NewFloat64; this is kept as the two number
  constructors QJSVal.int and QJSVal.float.
- Host functions retained by the bridge are identified by opaque ids
  (RetainedFn.host); sandbox functions by opaque ids (QJSFun.sandboxFn).
- Mutable C++ state (callbacks_ map, callbackCounter_, the file-static
  g_sandboxFuncCounter, the sandbox global object) is threaded explicitly
  through BState.
- jsi::JSError carries only a message string, so fallible operations return
  Except String.
-/

namespace QuickJSSandbox

/-- A host function value retained by the bridge: either a genuine host
function (opaque id) or a previously exported sandbox-function proxy
(capturing its export key). Both are jsi functions and are treated alike by
the marshaler. -/
inductive RetainedFn where
  | host (id : Nat)
  | proxy (exportKey : String)
deriving DecidableEq, Repr

/-- The data object attached by wrapFunctionForSandbox to the native
callable via JS_SetOpaque: models struct HostFunctionData
(self, func, callbackId). The C++ self pointer is modelled by a liveness
flag; func is a shared_ptr that can in principle be null. -/
structure HostFunctionData where
  selfLive : Bool
  func : Option RetainedFn
  callbackId : String
deriving DecidableEq, Repr

/-- A QuickJS callable: either an ordinary sandbox function (opaque id) or
the native trampoline created by JS_NewCFunctionData, carrying its attached
HostFunctionData (none models a null opaque pointer). -/
inductive QJSFun where
  | sandboxFn (id : Nat)
  | hostTrampoline (data : Option HostFunctionData)
deriving DecidableEq, Repr

/-- Host-side jsi::Value. Symbols carry their description plus an identity
id that the bridge never reads. bigint models the jsi value kind that the
marshaler does not handle (its dispatch chain falls through to the final
return JS_UNDEFINED). -/
inductive JSIVal where
  | undef
  | null
  | boolean (b : Bool)
  | number (q : ℚ)
  | str (s : String)
  | symbol (description : String) (id : Nat)
  | array (elems : List JSIVal)
  | function (f : RetainedFn)
  | object (props : List (String × JSIVal))
  | bigint (n : Int)

/-- Sandbox-side QuickJS JSValue. int and float together model the two
number tags accepted by JS_IsNumber. other models a tag recognized by none
of the dispatch tests in qjsToJSI (e.g. BigInt), which fall through to the
final return of undefined. -/
inductive QJSVal where
  | undef
  | null
  | boolean (b : Bool)
  | int (n : Int)
  | float (q : ℚ)
  | str (s : String)
  | symbol (description : String) (id : Nat)
  | array (elems : List QJSVal)
  | function (f : QJSFun)
  | object (props : List (String × QJSVal))
  | other

/-- Association-list read, first binding wins: models reading a property of
a JS object (JS_GetPropertyStr and friends). -/
def assocGet {α : Type} : List (String × α) → String → Option α
  | [], _ => none
  | (k2, v) :: rest, k => if k2 = k then some v else assocGet rest k

/-- Association-list write: replace the first binding of the key, or append
a new binding. Models assigning a property of a JS object
(JS_SetPropertyStr). -/
def assocSet {α : Type} : List (String × α) → String → α → List (String × α)
  | [], k, v => [(k, v)]
  | (k2, v2) :: rest, k, v =>
      if k2 = k then (k, v) :: rest else (k2, v2) :: assocSet rest k v

/-- State of one QuickJSSandboxContext: the disposed_ flag, the sandbox
global object (property map of the JSContext created by JS_NewContext), the
callbacks_ registry mapping callbackId to the retained host function, and
callbackCounter_. -/
structure CtxState where
  disposed : Bool
  globals : List (String × QJSVal)
  callbacks : List (String × RetainedFn)
  callbackCounter : Nat

/-- Marshaling state: the owning context plus the file-static
g_sandboxFuncCounter used to generate export keys for sandbox functions
crossing to the host. -/
structure BState where
  ctx : CtxState
  sandboxFuncCounter : Nat

/-- QuickJS JS_NewFloat64: a double that is bit-exactly an int32 is stored
with tag JS_TAG_INT, every other double with tag JS_TAG_FLOAT64. With an
exact rational payload the bit-exactness test becomes: integral and within
the int32 range. -/
def JS_NewFloat64 (q : ℚ) : QJSVal :=
  if q.den = 1 ∧ -(2 ^ 31) ≤ q.num ∧ q.num < 2 ^ 31 then .int q.num
  else .float q

/-- QuickJS JS_ToFloat64 on a value already accepted by JS_IsNumber: an int
tag converts exactly to its double, a float tag is returned unchanged. -/
def JS_ToFloat64 : QJSVal → ℚ
  | .int n => (n : ℚ)
  | .float q => q
  | _ => 0

/-- wrapFunctionForSandbox (QuickJSSandboxJSI.cpp lines 317 to 341): bump
callbackCounter_, form the id "cb_" ++ counter, store the retained function
in callbacks_ under that id, and return the native trampoline callable whose
attached HostFunctionData carries (this, the retained function, the id). -/
def wrapFunctionForSandbox (st : BState) (f : RetainedFn) : BState × QJSVal :=
  let n := st.ctx.callbackCounter + 1
  let callbackId := "cb_" ++ toString n
  let ctx2 : CtxState :=
    { st.ctx with
      callbackCounter := n
      callbacks := assocSet st.ctx.callbacks callbackId f }
  ({ st with ctx := ctx2 },
   .function (.hostTrampoline (some ⟨true, some f, callbackId⟩)))

mutual
/-- jsiToQJS (QuickJSSandboxJSI.cpp lines 344 to 404): convert a host
jsi::Value to a sandbox JSValue. Dispatch order as in the source:
isUndefined, isNull, isBool, isNumber, isString, isSymbol, isObject (inside
which: isFunction, isArray, then plain object), final fallback
JS_UNDEFINED. A symbol is converted to the string produced by
jsi::Symbol::toString, which yields the description (external jsi behavior,
per the spec and the source comment at lines 362 to 364). -/
def jsiToQJS (st : BState) : JSIVal → BState × QJSVal
  | .undef => (st, .undef)
  | .null => (st, .null)
  | .boolean b => (st, .boolean b)
  | .number q => (st, JS_NewFloat64 q)
  | .str s => (st, .str s)
  | .symbol d _ => (st, .str d)
  | .function f => wrapFunctionForSandbox st f
  | .array es =>
      let p := jsiListToQJS st es
      (p.1, .array p.2)
  | .object ps =>
      let p := jsiPropsToQJS st ps
      (p.1, .object p.2)
  | .bigint _ => (st, .undef)

/-- Element loop of the array branch of jsiToQJS: each index converted
recursively in index order. -/
def jsiListToQJS (st : BState) : List JSIVal → BState × List QJSVal
  | [] => (st, [])
  | v :: vs =>
      let p := jsiToQJS st v
      let q := jsiListToQJS p.1 vs
      (q.1, p.2 :: q.2)

/-- Property loop of the plain-object branch of jsiToQJS: each own
enumerable property converted recursively in enumeration order. -/
def jsiPropsToQJS (st : BState) :
    List (String × JSIVal) → BState × List (String × QJSVal)
  | [] => (st, [])
  | (k, v) :: ps =>
      let p := jsiToQJS st v
      let q := jsiPropsToQJS p.1 ps
      (q.1, (k, p.2) :: q.2)
end

mutual
/-- qjsToJSI (QuickJSSandboxJSI.cpp lines 407 to 545): convert a sandbox
JSValue to a host jsi::Value. Dispatch order as in the source: JS_IsUndefined,
JS_IsNull, JS_IsBool, JS_IsNumber, JS_IsString, JS_IsSymbol, JS_IsArray,
JS_IsFunction, JS_IsObject, final fallback undefined. A symbol converts to
the string produced by JS_ValueToAtom plus JS_AtomToCString, which is its
description (external QuickJS behavior, per the spec and the source comment
at lines 430 to 432). A function is rooted by storing it on the sandbox
global object under a fresh export key derived from the file-static counter
g_sandboxFuncCounter, and a host-callable proxy capturing that key is
returned. -/
def qjsToJSI (st : BState) : QJSVal → BState × JSIVal
  | .undef => (st, .undef)
  | .null => (st, .null)
  | .boolean b => (st, .boolean b)
  | .int n => (st, .number (JS_ToFloat64 (.int n)))
  | .float q => (st, .number (JS_ToFloat64 (.float q)))
  | .str s => (st, .str s)
  | .symbol d _ => (st, .str d)
  | .array es =>
      let p := qjsListToJSI st es
      (p.1, .array p.2)
  | .function f =>
      let n := st.sandboxFuncCounter + 1
      let funcKey := "__sandbox_fn_" ++ toString n ++ "__"
      let ctx2 : CtxState :=
        { st.ctx with globals := assocSet st.ctx.globals funcKey (.function f) }
      ({ ctx := ctx2, sandboxFuncCounter := n }, .function (.proxy funcKey))
  | .object ps =>
      let p := qjsPropsToJSI st ps
      (p.1, .object p.2)
  | .other => (st, .undef)

/-- Index loop of the array branch of qjsToJSI: indices 0 to length - 1
converted recursively in order. -/
def qjsListToJSI (st : BState) : List QJSVal → BState × List JSIVal
  | [] => (st, [])
  | v :: vs =>
      let p := qjsToJSI st v
      let q := qjsListToJSI p.1 vs
      (q.1, p.2 :: q.2)

/-- Property loop of the object branch of qjsToJSI: own enumerable string
properties converted recursively in enumeration order. -/
def qjsPropsToJSI (st : BState) :
    List (String × QJSVal) → BState × List (String × JSIVal)
  | [] => (st, [])
  | (k, v) :: ps =>
      let p := qjsToJSI st v
      let q := qjsPropsToJSI p.1 ps
      (q.1, (k, p.2) :: q.2)
end

/-- Outcome of invoking the native trampoline created for a host function:
either a thrown internal error, or the invocation of a retained host
function with the marshaled argument list (what happens inside the host
function is external to the bridge). -/
inductive TrampolineResult where
  | internalError (msg : String)
  | hostCall (f : RetainedFn) (args : List JSIVal)

/-- hostFunctionCallback (QuickJSSandboxJSI.cpp lines 249 to 284): read the
HostFunctionData attached to func_data[0] with JS_GetOpaque; if the data
pointer, its context back-pointer, or its retained function pointer is null,
throw an internal error; otherwise marshal each incoming sandbox argument
with qjsToJSI and invoke the retained host function. The callbacks_ registry
and the disposed_ flag are not consulted. -/
def hostFunctionCallback (data : Option HostFunctionData) (st : BState)
    (args : List QJSVal) : TrampolineResult :=
  match data with
  | none => .internalError "Invalid host function data"
  | some d =>
      if d.selfLive = false then .internalError "Invalid host function data"
      else
        match d.func with
        | none => .internalError "Invalid host function data"
        | some f => .hostCall f (qjsListToJSI st args).2

namespace QuickJSSandboxContext

/-- The console object installed by the bootstrap script that installConsole
(QuickJSSandboxJSI.cpp lines 81 to 128) evaluates in the fresh context: a
plain object whose methods are sandbox function values. -/
def consoleObject : QJSVal :=
  .object
    [("log", .function (.sandboxFn 1)),
     ("warn", .function (.sandboxFn 2)),
     ("error", .function (.sandboxFn 3)),
     ("info", .function (.sandboxFn 4)),
     ("debug", .function (.sandboxFn 5)),
     ("assert", .function (.sandboxFn 6)),
     ("trace", .function (.sandboxFn 7)),
     ("time", .function (.sandboxFn 8)),
     ("timeEnd", .function (.sandboxFn 9)),
     ("group", .function (.sandboxFn 10)),
     ("groupEnd", .function (.sandboxFn 11))]

/-- State of a freshly constructed QuickJSSandboxContext (lines 48 to 63):
not disposed, empty callbacks_ registry, callbackCounter_ 0, and the global
object seeded by installConsole with the native __qjs_print primitive and
the console object. -/
def initContext : CtxState :=
  { disposed := false
    globals :=
      [("__qjs_print", .function (.sandboxFn 0)), ("console", consoleObject)]
    callbacks := []
    callbackCounter := 0 }

/-- QuickJSSandboxContext::dispose (lines 67 to 79): under the lock, return
immediately if disposed_ is already set; otherwise set it, clear the
callbacks_ registry, and free the JSContext with JS_FreeContext (which
releases the global object and everything it roots, modelled by clearing the
globals map). -/
def dispose (c : CtxState) : CtxState :=
  if c.disposed then c
  else
    { disposed := true
      globals := []
      callbacks := []
      callbackCounter := c.callbackCounter }

/-- The behavior of JS_Eval is engine code external to this bridge: it is an
arbitrary function from the current context state and the source text to a
new context state plus either the completion JSValue or an exception
message. -/
def EvalEngine : Type := CtxState → String → CtxState × (QJSVal ⊕ String)

/-- QuickJSSandboxContext::eval (lines 221 to 246): under the lock, fail
with the Disposed message if disposed_ is set; otherwise run the code with
JS_Eval in the global scope of this context; on an exception, extract its message
text and re-raise it to the host; on success, marshal the completion value
with qjsToJSI and return it. -/
def eval (engine : EvalEngine) (st : BState) (code : String) :
    Except String (BState × JSIVal) :=
  if st.ctx.disposed then .error "Context has been disposed"
  else
    match engine st.ctx code with
    | (_, .inr msg) => .error msg
    | (c2, .inl v) => .ok (qjsToJSI { st with ctx := c2 } v)

/-- QuickJSSandboxContext::setGlobal (lines 286 to 298): under the lock,
fail with the Disposed message if disposed_ is set; otherwise marshal the
value with jsiToQJS and assign it as a property of the sandbox global
object. -/
def setGlobal (st : BState) (name : String) (v : JSIVal) :
    Except String BState :=
  if st.ctx.disposed then .error "Context has been disposed"
  else
    let p := jsiToQJS st v
    .ok
      { p.1 with
        ctx := { p.1.ctx with globals := assocSet p.1.ctx.globals name p.2 } }

/-- QuickJSSandboxContext::getGlobal (lines 300 to 315): under the lock,
fail with the Disposed message if disposed_ is set; otherwise read the named
property of the sandbox global object (a missing property reads as
JS_UNDEFINED) and marshal it with qjsToJSI. -/
def getGlobal (st : BState) (name : String) :
    Except String (BState × JSIVal) :=
  if st.ctx.disposed then .error "Context has been disposed"
  else .ok (qjsToJSI st ((assocGet st.ctx.globals name).getD .undef))

end QuickJSSandboxContext

/-- A pending engine job: executing it may fail (the failure is reported by
a negative JS_ExecutePendingJob return) and may enqueue further jobs. As an
inductive value a job can only enqueue jobs built before it, so Job models
exactly the well-founded job queues. -/
inductive Job where
  | mk (fails : Bool) (spawns : List Job)

/-- Whether executing this job raises an exception. -/
def Job.fails : Job → Bool
  | .mk f _ => f

/-- The jobs this job enqueues while executing. -/
def Job.spawns : Job → List Job
  | .mk _ sp => sp

mutual
/-- Total number of job executions a job gives rise to, itself included. -/
def Job.weight : Job → Nat
  | .mk _ sp => 1 + jobsWeight sp

/-- Total number of job executions a queue gives rise to. -/
def jobsWeight : List Job → Nat
  | [] => 0
  | j :: rest => Job.weight j + jobsWeight rest
end

/-- The pending-job drain loop of QuickJSSandboxRuntime::dispose (lines 580
to 595) run over a well-founded job queue: each iteration asks
JS_ExecutePendingJob to execute the first queued job (which may enqueue
more at the back); a negative return has its exception fetched, freed and
discarded, and draining continues; the loop exits only when the engine
reports that no job remains. The result lists the failure flag of every executed
job in execution order; no failure escapes the loop. -/
def drainQueue : List Job → List Bool
  | [] => []
  | j :: rest => j.fails :: drainQueue (rest ++ j.spawns)
termination_by q => jobsWeight q
decreasing_by
  have happ : ∀ l1 l2 : List Job,
      jobsWeight (l1 ++ l2) = jobsWeight l1 + jobsWeight l2 := by
    intro l1 l2
    induction l1 with
    | nil => simp [jobsWeight]
    | cons a t ih => simp [jobsWeight, ih]; omega
  cases j with
  | mk f sp => simp [happ, jobsWeight, Job.weight, Job.spawns]; omega

/-- One iteration of the drain loop as a queue transformer over well-founded
Job queues: the head job is executed and the jobs it spawns are enqueued at
the back; on an empty queue JS_ExecutePendingJob returns 0 and the loop
stops, leaving the queue empty. The queue evolution is independent of the
failure flag: a failed job has its exception cleared and the loop continues
identically (the swallowing at lines 587 to 593). -/
def drainStep : List Job → List Job
  | [] => []
  | j :: rest => rest ++ j.spawns

/-- The same loop body over an abstract engine, the general form: jobs are
identified by ids and the queueing behavior of the engine is an arbitrary spawn
function giving the jobs a job enqueues while executing. The loop in the
source has no iteration cap of any kind: it stops only when the queue is
empty. -/
def pendingDrainStep (spawn : Nat → List Nat) : List Nat → List Nat
  | [] => []
  | j :: rest => rest ++ spawn j

/-- State of one QuickJSSandboxRuntime: the disposed_ flag, whether
JS_FreeRuntime has run, the stored timeout_, the owned contexts_ in creation
order, the pending-job queue of the engine, and the export-key counter (the
file-static g_sandboxFuncCounter; claims never involve two runtimes at once,
so tracking it in the runtime state is equivalent). -/
structure RuntimeState where
  disposed : Bool
  engineFreed : Bool
  timeout : ℚ
  contexts : List CtxState
  pendingJobs : List Job
  sandboxFuncCounter : Nat

/-- One observable teardown step of QuickJSSandboxRuntime::dispose, in
execution order: a pending job executed by the drain loop (with its failure
flag), the disposal of the owned context at an index, and the
JS_FreeRuntime call. -/
inductive DisposeEvent where
  | executedJob (failed : Bool)
  | disposedContext (i : Nat)
  | freedEngine
deriving DecidableEq, Repr

namespace QuickJSSandboxRuntime

/-- QuickJSSandboxRuntime constructor (lines 549 to 567): stores the
timeout, creates the engine with JS_NewRuntime (configuring stack size,
memory limit and the can-block flag), not disposed, no contexts yet. -/
def create (timeout : ℚ) : RuntimeState :=
  { disposed := false
    engineFreed := false
    timeout := timeout
    contexts := []
    pendingJobs := []
    sandboxFuncCounter := 0 }

/-- QuickJSSandboxRuntime::createContext (lines 645 to 657): under the
lock, fail with the Disposed message if disposed_ is set; otherwise
construct a new context on the engine of this runtime, append it to contexts_,
and hand it to the host (modelled by returning its index). -/
def createContext (rt : RuntimeState) : Except String (RuntimeState × Nat) :=
  if rt.disposed then .error "Runtime has been disposed"
  else
    .ok
      ({ rt with
         contexts := rt.contexts ++ [QuickJSSandboxContext.initContext] },
       rt.contexts.length)

/-- QuickJSSandboxRuntime::dispose (lines 571 to 606): under the lock,
return immediately if disposed_ is already set; otherwise set it, then (1)
drain the pending jobs of the engine with the capless loop, swallowing job
failures, (2) dispose every owned context in order and clear contexts_, and
(3) free the engine with JS_FreeRuntime. The returned trace records the
teardown steps in execution order. -/
def dispose (rt : RuntimeState) : RuntimeState × List DisposeEvent :=
  if rt.disposed then (rt, [])
  else
    ({ disposed := true
       engineFreed := true
       timeout := rt.timeout
       contexts := []
       pendingJobs := []
       sandboxFuncCounter := rt.sandboxFuncCounter },
     (drainQueue rt.pendingJobs).map .executedJob
       ++ (List.range rt.contexts.length).map .disposedContext
       ++ [.freedEngine])

/-- Invoke setGlobal on the owned context at index i (the host holds each
context as its own HostObject; the index selects which one). The context
state and the shared export-key counter are written back into the runtime
state. -/
def setGlobalAt (rt : RuntimeState) (i : Nat) (name : String) (v : JSIVal) :
    Except String RuntimeState :=
  match rt.contexts.get? i with
  | none => .error "no such context"
  | some c =>
      match QuickJSSandboxContext.setGlobal ⟨c, rt.sandboxFuncCounter⟩ name v with
      | .error e => .error e
      | .ok st2 =>
          .ok
            { rt with
              contexts := rt.contexts.set i st2.ctx
              sandboxFuncCounter := st2.sandboxFuncCounter }

/-- Invoke getGlobal on the owned context at index i, writing any state
change (export-key rooting for function values) back into the runtime
state. -/
def getGlobalAt (rt : RuntimeState) (i : Nat) (name : String) :
    Except String (RuntimeState × JSIVal) :=
  match rt.contexts.get? i with
  | none => .error "no such context"
  | some c =>
      match QuickJSSandboxContext.getGlobal ⟨c, rt.sandboxFuncCounter⟩ name with
      | .error e => .error e
      | .ok (st2, v) =>
          .ok
            ({ rt with
               contexts := rt.contexts.set i st2.ctx
               sandboxFuncCounter := st2.sandboxFuncCounter },
             v)

end QuickJSSandboxRuntime

namespace QuickJSSandboxModule

/-- jsi::Value::isObject: true for plain objects, arrays and functions
alike. -/
def isObjectVal : JSIVal → Bool
  | .array _ => true
  | .function _ => true
  | .object _ => true
  | _ => false

/-- Reading the "timeout" property of the options argument: a plain object
looks up its property map; arrays and functions have no such property. -/
def getPropertyVal : JSIVal → String → Option JSIVal
  | .object ps, k => assocGet ps k
  | _, _ => none

/-- The timeout computation of createRuntime (lines 669 to 689): start from
the default 30000; if at least one argument was passed and it is an object
that has a "timeout" property whose value is a number, use that number. -/
def parseTimeout (args : List JSIVal) : ℚ :=
  match args with
  | [] => 30000
  | a :: _ =>
      if isObjectVal a then
        match getPropertyVal a "timeout" with
        | some (.number q) => q
        | _ => 30000
      else 30000

/-- createRuntime: parse the timeout from the arguments and construct a
QuickJSSandboxRuntime storing it. -/
def createRuntime (args : List JSIVal) : RuntimeState :=
  QuickJSSandboxRuntime.create (parseTimeout args)

/-- isAvailable (lines 691 to 696): always returns true. -/
def isAvailable : Bool := true

end QuickJSSandboxModule

/-- Registering a list of host functions into a context: each one passes
through wrapFunctionForSandbox (as when a host function value crosses into
the sandbox via setGlobal or as an argument). -/
def registerHostFns (st : BState) (fs : List RetainedFn) : BState :=
  fs.foldl (fun s f => (wrapFunctionForSandbox s f).1) st

/-- Whether a host value is one of the primitive kinds of the round-trip
property: undefined, null, boolean, number or string. -/
def isPrimitiveVal : JSIVal → Bool
  | .undef => true
  | .null => true
  | .boolean _ => true
  | .number _ => true
  | .str _ => true
  | _ => false

/-- Whether a host value is a primitive or an array of primitives. -/
def isPrimitiveOrPrimArray : JSIVal → Bool
  | .array es => es.all isPrimitiveVal
  | v => isPrimitiveVal v

/-!
Helper lemmas shared by the claim theorems.
-/

/-- Reading back the key just written into an association list yields the
written value. -/
theorem assocGet_assocSet_self {α : Type} (l : List (String × α)) (k : String)
    (v : α) : assocGet (assocSet l k v) k = some v := by
  induction l with
  | nil => simp [assocSet, assocGet]
  | cons p rest ih =>
      by_cases h : p.1 = k
      · simp [assocSet, assocGet, h]
      · cases p with
        | mk k2 v2 => simp_all [assocSet, assocGet]

/-- Writing a key absent from an association list appends one binding. -/
theorem assocSet_length_of_not_mem {α : Type} (l : List (String × α))
    (k : String) (v : α) (h : assocGet l k = none) :
    (assocSet l k v).length = l.length + 1 := by
  induction l with
  | nil => simp [assocSet]
  | cons p rest ih =>
      cases p with
      | mk k2 v2 =>
          by_cases hk : k2 = k
          · simp [assocGet, hk] at h
          · simp [assocSet, assocGet, hk] at h ⊢
            exact ih h

/-- A context that has gone through dispose has its disposed_ flag set. -/
theorem dispose_disposed (c : CtxState) :
    (QuickJSSandboxContext.dispose c).disposed = true := by
  by_cases h : c.disposed
  · simp [QuickJSSandboxContext.dispose, h]
  · simp [QuickJSSandboxContext.dispose, h]

/-- Registration never touches the disposed_ flag. -/
theorem registerHostFns_disposed (fs : List RetainedFn) (st : BState) :
    (registerHostFns st fs).ctx.disposed = st.ctx.disposed := by
  induction fs generalizing st with
  | nil => rfl
  | cons f rest ih =>
      show (registerHostFns (wrapFunctionForSandbox st f).1 rest).ctx.disposed
        = st.ctx.disposed
      rw [ih]
      simp [wrapFunctionForSandbox]

/-- The state component of jsiToQJS is unchanged by a primitive value. -/
theorem jsiToQJS_fst_of_prim (v : JSIVal) (h : isPrimitiveVal v = true)
    (st : BState) : (jsiToQJS st v).1 = st := by
  cases v <;> simp_all [isPrimitiveVal, jsiToQJS]

/-- Round trip on a primitive: converting a primitive host value into the
sandbox and back yields the same value, from any marshaling state on either
side. -/
theorem qjsToJSI_jsiToQJS_of_prim (v : JSIVal) (h : isPrimitiveVal v = true)
    (st st2 : BState) : qjsToJSI st2 (jsiToQJS st v).2 = (st2, v) := by
  cases v with
  | number q =>
      simp only [jsiToQJS, JS_NewFloat64]
      split
      · rename_i hc
        simp [qjsToJSI, JS_ToFloat64, Rat.coe_int_num_of_den_eq_one hc.1]
      · simp [qjsToJSI, JS_ToFloat64]
  | _ => simp_all [isPrimitiveVal, jsiToQJS, qjsToJSI]

/-- The state component of the array-element loop of jsiToQJS is unchanged
by a list of primitives. -/
theorem jsiListToQJS_fst_of_prim (es : List JSIVal)
    (h : es.all isPrimitiveVal = true) (st : BState) :
    (jsiListToQJS st es).1 = st := by
  induction es generalizing st with
  | nil => simp [jsiListToQJS]
  | cons v vs ih =>
      simp only [List.all_cons, Bool.and_eq_true] at h
      simp only [jsiListToQJS]
      rw [jsiToQJS_fst_of_prim v h.1 st, ih h.2 st]

/-- Round trip on an array of primitives: each index converted into the
sandbox and back in order yields the original list, from any marshaling
state on either side. -/
theorem qjsListToJSI_jsiListToQJS_of_prim (es : List JSIVal)
    (h : es.all isPrimitiveVal = true) (st st2 : BState) :
    qjsListToJSI st2 (jsiListToQJS st es).2 = (st2, es) := by
  induction es generalizing st st2 with
  | nil => simp [jsiListToQJS, qjsListToJSI]
  | cons v vs ih =>
      simp only [List.all_cons, Bool.and_eq_true] at h
      simp only [jsiListToQJS, qjsListToJSI]
      rw [jsiToQJS_fst_of_prim v h.1 st,
        qjsToJSI_jsiToQJS_of_prim v h.1 st st2, ih h.2 st st2]

/-- Round trip for every primitive or array of primitives, together with
the fact that the marshaling state is untouched. -/
theorem marshal_roundtrip (v : JSIVal) (h : isPrimitiveOrPrimArray v = true)
    (st : BState) :
    (jsiToQJS st v).1 = st ∧
      ∀ st2 : BState, qjsToJSI st2 (jsiToQJS st v).2 = (st2, v) := by
  cases v with
  | array es =>
      simp only [isPrimitiveOrPrimArray] at h
      constructor
      · simp only [jsiToQJS]
        exact jsiListToQJS_fst_of_prim es h st
      · intro st2
        simp only [jsiToQJS, qjsToJSI]
        rw [qjsListToJSI_jsiListToQJS_of_prim es h st st2]
  | undef =>
      exact ⟨jsiToQJS_fst_of_prim JSIVal.undef rfl st,
        fun st2 => qjsToJSI_jsiToQJS_of_prim JSIVal.undef rfl st st2⟩
  | null =>
      exact ⟨jsiToQJS_fst_of_prim JSIVal.null rfl st,
        fun st2 => qjsToJSI_jsiToQJS_of_prim JSIVal.null rfl st st2⟩
  | boolean b =>
      exact ⟨jsiToQJS_fst_of_prim (JSIVal.boolean b) rfl st,
        fun st2 => qjsToJSI_jsiToQJS_of_prim (JSIVal.boolean b) rfl st st2⟩
  | number q =>
      exact ⟨jsiToQJS_fst_of_prim (JSIVal.number q) rfl st,
        fun st2 => qjsToJSI_jsiToQJS_of_prim (JSIVal.number q) rfl st st2⟩
  | str s =>
      exact ⟨jsiToQJS_fst_of_prim (JSIVal.str s) rfl st,
        fun st2 => qjsToJSI_jsiToQJS_of_prim (JSIVal.str s) rfl st st2⟩
  | symbol d i => simp [isPrimitiveOrPrimArray, isPrimitiveVal] at h
  | function f => simp [isPrimitiveOrPrimArray, isPrimitiveVal] at h
  | object ps => simp [isPrimitiveOrPrimArray, isPrimitiveVal] at h
  | bigint n => simp [isPrimitiveOrPrimArray, isPrimitiveVal] at h

/-!
Claim theorems.
-/

/-- C4: after QuickJSSandboxContext::dispose has run once, eval, setGlobal
and getGlobal each fail with the Disposed error, and a second dispose is a
no-op that leaves the context state unchanged. -/
theorem c4_disposed_contract (c : CtxState) (sf : Nat)
    (engine : QuickJSSandboxContext.EvalEngine) (code nm : String)
    (v : JSIVal) :
    QuickJSSandboxContext.eval engine ⟨QuickJSSandboxContext.dispose c, sf⟩
        code = .error "Context has been disposed" ∧
    QuickJSSandboxContext.setGlobal ⟨QuickJSSandboxContext.dispose c, sf⟩ nm
        v = .error "Context has been disposed" ∧
    QuickJSSandboxContext.getGlobal ⟨QuickJSSandboxContext.dispose c, sf⟩ nm
        = .error "Context has been disposed" ∧
    QuickJSSandboxContext.dispose (QuickJSSandboxContext.dispose c)
        = QuickJSSandboxContext.dispose c := by
  have hd := dispose_disposed c
  refine ⟨?_, ?_, ?_, ?_⟩
  · simp [QuickJSSandboxContext.eval, hd]
  · simp [QuickJSSandboxContext.setGlobal, hd]
  · simp [QuickJSSandboxContext.getGlobal, hd]
  · by_cases h : c.disposed
    · simp [QuickJSSandboxContext.dispose, h]
    · simp [QuickJSSandboxContext.dispose, h]

/-- C8: a symbol crossing the boundary in either direction becomes a plain
string holding its description, whatever its identity: nothing else about
the symbol is carried across, and the marshaling state is untouched. -/
theorem c8_symbol_degradation (st st2 : BState) (d : String) (i i2 : Nat) :
    jsiToQJS st (.symbol d i) = (st, .str d) ∧
      qjsToJSI st2 (.symbol d i2) = (st2, .str d) := by
  constructor <;> simp [jsiToQJS, qjsToJSI]

/-- C10: marshaling is total on value kinds. A host value of a kind outside
the dispatch chain (bigint) converts to the sandbox undefined, a sandbox
value with an unrecognized tag converts to the host undefined, and both
conversions return normally (they are total functions into plain values,
with no error outcome) leaving the state untouched. -/
theorem c10_marshal_total (st st2 : BState) (n : Int) :
    jsiToQJS st (.bigint n) = (st, .undef) ∧
      qjsToJSI st2 .other = (st2, .undef) := by
  constructor <;> simp [jsiToQJS, qjsToJSI]

/-- Queue weight is additive over concatenation. -/
theorem jobsWeight_append (l1 l2 : List Job) :
    jobsWeight (l1 ++ l2) = jobsWeight l1 + jobsWeight l2 := by
  induction l1 with
  | nil => simp [jobsWeight]
  | cons a t ih => simp [jobsWeight, ih]; omega

/-- Iterating the drain step from any well-founded job queue reaches the
empty queue. -/
theorem drainStep_reaches_empty (q : List Job) :
    ∃ n : Nat, drainStep^[n] q = [] := by
  generalize hw : jobsWeight q = w
  induction w using Nat.strong_induction_on generalizing q with
  | _ w ih =>
      cases q with
      | nil => exact ⟨0, rfl⟩
      | cons j rest =>
          cases j with
          | mk f sp =>
              have hlt : jobsWeight (rest ++ sp) < w := by
                rw [jobsWeight_append]
                subst hw
                simp [jobsWeight, Job.weight]
                omega
              obtain ⟨n, hn⟩ := ih _ hlt (rest ++ sp) rfl
              refine ⟨n + 1, ?_⟩
              rw [Function.iterate_succ_apply]
              simpa [drainStep, Job.spawns] using hn

/-- The drain executes exactly the total number of jobs of the queue, spawned
jobs included. -/
theorem drainQueue_length (q : List Job) :
    (drainQueue q).length = jobsWeight q := by
  generalize hw : jobsWeight q = w
  induction w using Nat.strong_induction_on generalizing q with
  | _ w ih =>
      cases q with
      | nil =>
          subst hw
          simp [drainQueue, jobsWeight]
      | cons j rest =>
          cases j with
          | mk f sp =>
              have hlt : jobsWeight (rest ++ sp) < w := by
                rw [jobsWeight_append]
                subst hw
                simp [jobsWeight, Job.weight]
                omega
              have hrec := ih _ hlt (rest ++ sp) rfl
              subst hw
              simp [drainQueue, hrec, jobsWeight_append, jobsWeight,
                Job.weight, Job.spawns, Job.fails]
              omega

/-- C1 counterexample: on a runtime holding one live context and one
pending job, the first dispose drains the pending job BEFORE disposing the
owned context, so the trace is not the claimed contexts-first order. -/
theorem c1_counterexample :
    (QuickJSSandboxRuntime.dispose
        { disposed := false, engineFreed := false, timeout := 30000,
          contexts := [QuickJSSandboxContext.initContext],
          pendingJobs := [Job.mk false []], sandboxFuncCounter := 0 }).2
      = [.executedJob false, .disposedContext 0, .freedEngine] ∧
    [DisposeEvent.executedJob false, .disposedContext 0, .freedEngine]
      ≠ [DisposeEvent.disposedContext 0, .executedJob false, .freedEngine] := by
  constructor
  · simp [QuickJSSandboxRuntime.dispose, drainQueue, Job.fails, Job.spawns,
      List.range_succ]
  · decide

/-- C1 amended: the first dispose of a runtime performs its teardown in the
order the code implements — it first drains the pending jobs of the engine, then
disposes every owned context in creation order, then frees the engine
instance. -/
theorem c1_dispose_order (rt : RuntimeState) (h : rt.disposed = false) :
    ∃ jobEvents : List DisposeEvent,
      (∀ e ∈ jobEvents, ∃ b, e = DisposeEvent.executedJob b) ∧
      (QuickJSSandboxRuntime.dispose rt).2
        = jobEvents
            ++ (List.range rt.contexts.length).map DisposeEvent.disposedContext
            ++ [DisposeEvent.freedEngine] ∧
      (QuickJSSandboxRuntime.dispose rt).1.engineFreed = true := by
  refine ⟨(drainQueue rt.pendingJobs).map .executedJob, ?_, ?_, ?_⟩
  · intro e he
    simp only [List.mem_map] at he
    obtain ⟨b, _, rfl⟩ := he
    exact ⟨b, rfl⟩
  · simp [QuickJSSandboxRuntime.dispose, h]
  · simp [QuickJSSandboxRuntime.dispose, h]

/-- Witness for the amended C1 on a concrete runtime with two contexts and
one pending job. -/
theorem c1_dispose_order_witness :
    ∃ jobEvents : List DisposeEvent,
      (∀ e ∈ jobEvents, ∃ b, e = DisposeEvent.executedJob b) ∧
      (QuickJSSandboxRuntime.dispose
          { disposed := false, engineFreed := false, timeout := 30000,
            contexts :=
              [QuickJSSandboxContext.initContext,
               QuickJSSandboxContext.initContext],
            pendingJobs := [Job.mk true []], sandboxFuncCounter := 0 }).2
        = jobEvents
            ++ (List.range
                ({ disposed := false, engineFreed := false, timeout := 30000,
                   contexts :=
                     [QuickJSSandboxContext.initContext,
                      QuickJSSandboxContext.initContext],
                   pendingJobs := [Job.mk true []],
                   sandboxFuncCounter := 0 : RuntimeState}).contexts.length).map
                DisposeEvent.disposedContext
            ++ [DisposeEvent.freedEngine] ∧
      (QuickJSSandboxRuntime.dispose
          { disposed := false, engineFreed := false, timeout := 30000,
            contexts :=
              [QuickJSSandboxContext.initContext,
               QuickJSSandboxContext.initContext],
            pendingJobs := [Job.mk true []],
            sandboxFuncCounter := 0 }).1.engineFreed = true :=
  c1_dispose_order
    { disposed := false, engineFreed := false, timeout := 30000,
      contexts :=
        [QuickJSSandboxContext.initContext, QuickJSSandboxContext.initContext],
      pendingJobs := [Job.mk true []], sandboxFuncCounter := 0 } rfl

/-- C2 counterexample: the drain loop has no iteration cap, so against the
engine behavior in which the single queued job re-enqueues itself (in the
engine: a promise reaction that schedules itself again, queued before
dispose is called) no number of loop iterations ever reaches the empty
queue — the loop does not terminate for every state. -/
theorem c2_counterexample :
    ¬ ∃ n : Nat, (pendingDrainStep (fun _ => [0]))^[n] [0] = [] := by
  have h : ∀ n : Nat, (pendingDrainStep (fun _ => [0]))^[n] [0] = [0] := by
    intro n
    induction n with
    | zero => rfl
    | succ n ih =>
        rw [Function.iterate_succ_apply]
        simpa [pendingDrainStep] using ih
  rintro ⟨n, hn⟩
  rw [h n] at hn
  simp at hn

/-- C2 amended: the drain loop repeatedly executes queued jobs and stops
exactly when none remain, with no iteration cap; over any well-founded job
queue it terminates, executing every job including the spawned ones; and a
failure while draining a job is swallowed — the queue evolves identically
whether or not the executed job failed, so the drain (and dispose with it)
never throws. -/
theorem c2_drain_loop (q : List Job) (f1 f2 : Bool) (sp rest : List Job) :
    (∃ n : Nat, drainStep^[n] q = []) ∧
    (drainQueue q).length = jobsWeight q ∧
    drainStep (Job.mk f1 sp :: rest) = drainStep (Job.mk f2 sp :: rest) :=
  ⟨drainStep_reaches_empty q, drainQueue_length q, rfl⟩

/-- C3 counterexample: after dispose the registry holds no entry under the
callback id of the proxy, yet invoking the trampoline with its data object
intact does NOT fail with an internal error — it invokes the retained host
function, because the trampoline reads the function from its attached data
object and never looks the id up in the registry. -/
theorem c3_counterexample :
    (QuickJSSandboxContext.dispose QuickJSSandboxContext.initContext).callbacks
      = [] ∧
    assocGet
        (QuickJSSandboxContext.dispose
          QuickJSSandboxContext.initContext).callbacks "cb_1" = none ∧
    hostFunctionCallback (some ⟨true, some (.host 7), "cb_1"⟩)
        ⟨QuickJSSandboxContext.dispose QuickJSSandboxContext.initContext, 0⟩ []
      = .hostCall (.host 7) [] := by
  refine ⟨?_, ?_, ?_⟩
  · simp [QuickJSSandboxContext.dispose, QuickJSSandboxContext.initContext]
  · simp [QuickJSSandboxContext.dispose, QuickJSSandboxContext.initContext,
      assocGet]
  · simp [hostFunctionCallback, qjsListToJSI]

/-- C3 amended: dispose clears the host-function-proxy registry, but an
outstanding proxy is not made inert by a registry lookup: the trampoline
never consults the registry or the disposed_ flag — it raises the internal
error exactly when its attached data object, the context back-pointer, or
the retained function pointer is null (as after the finalizer has run), and
with an intact data object it invokes the retained host function on the
marshaled arguments even though the context is disposed and its registry
entry is gone. -/
theorem c3_trampoline_data (c : CtxState) (h : c.disposed = false)
    (st : BState) (args : List QJSVal) (f : RetainedFn) (cid : String) :
    (QuickJSSandboxContext.dispose c).callbacks = [] ∧
    hostFunctionCallback none st args
      = .internalError "Invalid host function data" ∧
    hostFunctionCallback (some ⟨false, some f, cid⟩) st args
      = .internalError "Invalid host function data" ∧
    hostFunctionCallback (some ⟨true, none, cid⟩) st args
      = .internalError "Invalid host function data" ∧
    hostFunctionCallback (some ⟨true, some f, cid⟩) st args
      = .hostCall f (qjsListToJSI st args).2 := by
  refine ⟨?_, rfl, ?_, rfl, rfl⟩
  · simp [QuickJSSandboxContext.dispose, h]
  · simp [hostFunctionCallback]

/-- Witness for the amended C3 at a concrete disposed context and a
concrete proxy. -/
theorem c3_trampoline_data_witness :
    (QuickJSSandboxContext.dispose QuickJSSandboxContext.initContext).callbacks
      = [] ∧
    hostFunctionCallback none ⟨QuickJSSandboxContext.initContext, 0⟩ []
      = .internalError "Invalid host function data" ∧
    hostFunctionCallback (some ⟨false, some (.host 7), "cb_1"⟩)
        ⟨QuickJSSandboxContext.initContext, 0⟩ []
      = .internalError "Invalid host function data" ∧
    hostFunctionCallback (some ⟨true, none, "cb_1"⟩)
        ⟨QuickJSSandboxContext.initContext, 0⟩ []
      = .internalError "Invalid host function data" ∧
    hostFunctionCallback (some ⟨true, some (.host 7), "cb_1"⟩)
        ⟨QuickJSSandboxContext.initContext, 0⟩ []
      = .hostCall (.host 7)
          (qjsListToJSI ⟨QuickJSSandboxContext.initContext, 0⟩ []).2 :=
  c3_trampoline_data QuickJSSandboxContext.initContext rfl
    ⟨QuickJSSandboxContext.initContext, 0⟩ [] (.host 7) "cb_1"

/-- C5: on a non-disposed context, setGlobal of a primitive value or of an
array of primitives followed by getGlobal of the same name returns a value
structurally (deep) equal to the original: the host-to-sandbox marshaler
composed with the sandbox-to-host marshaler is the identity on these
values, element-wise in index order for arrays. -/
theorem c5_set_get_roundtrip (st : BState) (name : String) (v : JSIVal)
    (h1 : st.ctx.disposed = false) (h2 : isPrimitiveOrPrimArray v = true) :
    ∃ st2 : BState,
      QuickJSSandboxContext.setGlobal st name v = .ok st2 ∧
      QuickJSSandboxContext.getGlobal st2 name = .ok (st2, v) := by
  obtain ⟨hfst, hsnd⟩ := marshal_roundtrip v h2 st
  refine
    ⟨{ st with
       ctx :=
        { st.ctx with
          globals := assocSet st.ctx.globals name (jsiToQJS st v).2 } },
     ?_, ?_⟩
  · simp only [QuickJSSandboxContext.setGlobal, h1, Bool.false_eq_true,
      if_false]
    rw [hfst]
    simp [h1]
  · simp only [QuickJSSandboxContext.getGlobal, h1]
    rw [assocGet_assocSet_self]
    simp only [Option.getD_some, Bool.false_eq_true, if_false]
    rw [hsnd]

/-- Witness for C5 at the concrete inputs of the spec: the array [1, 2, 3]
set and read back on a fresh context. -/
theorem c5_set_get_roundtrip_witness :
    ∃ st2 : BState,
      QuickJSSandboxContext.setGlobal ⟨QuickJSSandboxContext.initContext, 0⟩
          "x" (.array [.number 1, .number 2, .number 3]) = .ok st2 ∧
      QuickJSSandboxContext.getGlobal st2 "x"
        = .ok (st2, .array [.number 1, .number 2, .number 3]) :=
  c5_set_get_roundtrip ⟨QuickJSSandboxContext.initContext, 0⟩ "x"
    (.array [.number 1, .number 2, .number 3]) rfl rfl

/-- C6: registering host functions into a live context and then disposing
it leaves the callbacks_ registry with 0 entries; and one registration
under a callback id not yet in the registry adds exactly one entry. -/
theorem c6_registry_count (st : BState) (fs : List RetainedFn)
    (f : RetainedFn) (h : st.ctx.disposed = false) :
    (QuickJSSandboxContext.dispose
        (registerHostFns st fs).ctx).callbacks.length = 0 ∧
    (assocGet st.ctx.callbacks
        ("cb_" ++ toString (st.ctx.callbackCounter + 1)) = none →
      (wrapFunctionForSandbox st f).1.ctx.callbacks.length
        = st.ctx.callbacks.length + 1) := by
  constructor
  · have hdisp : (registerHostFns st fs).ctx.disposed = false := by
      rw [registerHostFns_disposed]
      exact h
    simp [QuickJSSandboxContext.dispose, hdisp]
  · intro hfresh
    simp [wrapFunctionForSandbox, assocSet_length_of_not_mem _ _ _ hfresh]

/-- Witness for C6: three host functions registered into a fresh context,
which is then disposed. -/
theorem c6_registry_count_witness :
    (QuickJSSandboxContext.dispose
        (registerHostFns ⟨QuickJSSandboxContext.initContext, 0⟩
          [.host 1, .host 2, .host 3]).ctx).callbacks.length = 0 :=
  (c6_registry_count ⟨QuickJSSandboxContext.initContext, 0⟩
    [.host 1, .host 2, .host 3] (.host 1) rfl).1

/-- Reading the unset global "g" on a fresh context yields undefined: the
seeded globals are only __qjs_print and console. -/
theorem getGlobal_init_g (sf : Nat) :
    QuickJSSandboxContext.getGlobal ⟨QuickJSSandboxContext.initContext, sf⟩
        "g"
      = .ok (⟨QuickJSSandboxContext.initContext, sf⟩, .undef) := by
  simp [QuickJSSandboxContext.getGlobal, QuickJSSandboxContext.initContext,
    QuickJSSandboxContext.consoleObject, assocGet, qjsToJSI]

/-- C7: a global set through one context is invisible to a distinct fresh
sibling context of the same runtime — reading "g" on the sibling yields
undefined after the set on the first context exactly as it does without
it. -/
theorem c7_context_isolation (rt rt2 : RuntimeState) (i j : Nat)
    (hij : i ≠ j)
    (hj : rt.contexts[j]? = some QuickJSSandboxContext.initContext)
    (hset : QuickJSSandboxRuntime.setGlobalAt rt i "g" (.number 1)
      = .ok rt2) :
    (∃ rt3, QuickJSSandboxRuntime.getGlobalAt rt2 j "g"
      = .ok (rt3, .undef)) ∧
    (∃ rt4, QuickJSSandboxRuntime.getGlobalAt rt j "g"
      = .ok (rt4, .undef)) := by
  have hread : ∀ rt0 : RuntimeState,
      rt0.contexts[j]? = some QuickJSSandboxContext.initContext →
      ∃ rt3, QuickJSSandboxRuntime.getGlobalAt rt0 j "g"
        = .ok (rt3, .undef) := by
    intro rt0 h0
    simp only [QuickJSSandboxRuntime.getGlobalAt, List.get?_eq_getElem?, h0,
      getGlobal_init_g]
    exact ⟨_, rfl⟩
  constructor
  · have h2j : rt2.contexts[j]?
        = some QuickJSSandboxContext.initContext := by
      cases hgi : rt.contexts[i]? with
      | none =>
          simp [QuickJSSandboxRuntime.setGlobalAt, List.get?_eq_getElem?,
            hgi] at hset
      | some c =>
          cases hsg : QuickJSSandboxContext.setGlobal
              ⟨c, rt.sandboxFuncCounter⟩ "g" (.number 1) with
          | error e =>
              simp [QuickJSSandboxRuntime.setGlobalAt,
                List.get?_eq_getElem?, hgi, hsg] at hset
          | ok st2 =>
              simp only [QuickJSSandboxRuntime.setGlobalAt,
                List.get?_eq_getElem?, hgi, hsg, Except.ok.injEq] at hset
              subst hset
              simpa [List.getElem?_set_ne hij] using hj
    exact hread rt2 h2j
  · exact hread rt hj

/-- The number 1 is canonicalized to an int-tagged QuickJS value. -/
theorem JS_NewFloat64_one : JS_NewFloat64 1 = QJSVal.int 1 := by
  rw [JS_NewFloat64, if_pos (by decide)]
  norm_num

/-- Concrete evaluation of setGlobal of the number 1 under "g" on a fresh
context. -/
theorem setGlobal_init_g_one :
    QuickJSSandboxContext.setGlobal ⟨QuickJSSandboxContext.initContext, 0⟩
        "g" (.number 1)
      = .ok
          ⟨{ QuickJSSandboxContext.initContext with
             globals :=
              QuickJSSandboxContext.initContext.globals
                ++ [("g", QJSVal.int 1)] }, 0⟩ := by
  simp [QuickJSSandboxContext.setGlobal, jsiToQJS, JS_NewFloat64_one,
    QuickJSSandboxContext.initContext, QuickJSSandboxContext.consoleObject,
    assocSet]

/-- Witness for C7 on a concrete runtime with two fresh contexts: setting
"g" through the context at index 0 leaves "g" undefined in the context at
index 1, as it was before the set. -/
theorem c7_context_isolation_witness :
    ∃ rt2 : RuntimeState,
      QuickJSSandboxRuntime.setGlobalAt
          { disposed := false, engineFreed := false, timeout := 30000,
            contexts :=
              [QuickJSSandboxContext.initContext,
               QuickJSSandboxContext.initContext],
            pendingJobs := [], sandboxFuncCounter := 0 } 0 "g" (.number 1)
        = .ok rt2 ∧
      (∃ rt3, QuickJSSandboxRuntime.getGlobalAt rt2 1 "g"
        = .ok (rt3, .undef)) ∧
      (∃ rt4, QuickJSSandboxRuntime.getGlobalAt
          { disposed := false, engineFreed := false, timeout := 30000,
            contexts :=
              [QuickJSSandboxContext.initContext,
               QuickJSSandboxContext.initContext],
            pendingJobs := [], sandboxFuncCounter := 0 } 1 "g"
        = .ok (rt4, .undef)) := by
  have hset : QuickJSSandboxRuntime.setGlobalAt
      { disposed := false, engineFreed := false, timeout := 30000,
        contexts :=
          [QuickJSSandboxContext.initContext,
           QuickJSSandboxContext.initContext],
        pendingJobs := [], sandboxFuncCounter := 0 } 0 "g" (.number 1)
      = .ok
          { disposed := false, engineFreed := false, timeout := 30000,
            contexts :=
              [{ QuickJSSandboxContext.initContext with
                 globals :=
                  QuickJSSandboxContext.initContext.globals
                    ++ [("g", QJSVal.int 1)] },
               QuickJSSandboxContext.initContext],
            pendingJobs := [], sandboxFuncCounter := 0 } := by
    simp [QuickJSSandboxRuntime.setGlobalAt, setGlobal_init_g_one, List.set]
  refine ⟨_, hset, ?_, ?_⟩
  · exact (c7_context_isolation
        { disposed := false, engineFreed := false, timeout := 30000,
          contexts :=
            [QuickJSSandboxContext.initContext,
             QuickJSSandboxContext.initContext],
          pendingJobs := [], sandboxFuncCounter := 0 }
        _ 0 1 (by decide) rfl hset).1
  · exact (c7_context_isolation
        { disposed := false, engineFreed := false, timeout := 30000,
          contexts :=
            [QuickJSSandboxContext.initContext,
             QuickJSSandboxContext.initContext],
          pendingJobs := [], sandboxFuncCounter := 0 }
        _ 0 1 (by decide) rfl hset).2

/-- C9: createRuntime stores the default timeout 30000 whenever the options
argument is absent, is not an object, or lacks a numeric timeout property;
and the stored timeout is never read afterwards — every runtime operation
behaves identically under any two timeout values (context-level operations
do not even take the timeout: the context constructor ignores its timeout
parameter outright). -/
theorem c9_timeout_unused (a : JSIVal) (rest : List JSIVal)
    (rt : RuntimeState) (t : ℚ)
    (hno : ∀ q : ℚ,
      QuickJSSandboxModule.getPropertyVal a "timeout" ≠ some (.number q)) :
    (QuickJSSandboxModule.createRuntime []).timeout = 30000 ∧
    (QuickJSSandboxModule.isObjectVal a = false →
      (QuickJSSandboxModule.createRuntime (a :: rest)).timeout = 30000) ∧
    (QuickJSSandboxModule.createRuntime (a :: rest)).timeout = 30000 ∧
    QuickJSSandboxRuntime.createContext { rt with timeout := t }
      = (QuickJSSandboxRuntime.createContext rt).map
          (fun p => ({ p.1 with timeout := t }, p.2)) ∧
    QuickJSSandboxRuntime.dispose { rt with timeout := t }
      = ({ (QuickJSSandboxRuntime.dispose rt).1 with timeout := t },
         (QuickJSSandboxRuntime.dispose rt).2) ∧
    (∀ (i : Nat) (nm : String) (v : JSIVal),
      QuickJSSandboxRuntime.setGlobalAt { rt with timeout := t } i nm v
        = (QuickJSSandboxRuntime.setGlobalAt rt i nm v).map
            (fun r => { r with timeout := t })) ∧
    (∀ (i : Nat) (nm : String),
      QuickJSSandboxRuntime.getGlobalAt { rt with timeout := t } i nm
        = (QuickJSSandboxRuntime.getGlobalAt rt i nm).map
            (fun p => ({ p.1 with timeout := t }, p.2))) := by
  refine ⟨rfl, ?_, ?_, ?_, ?_, ?_, ?_⟩
  · intro hobj
    simp [QuickJSSandboxModule.createRuntime,
      QuickJSSandboxModule.parseTimeout, QuickJSSandboxRuntime.create, hobj]
  · by_cases hobj : QuickJSSandboxModule.isObjectVal a = true
    · cases hga : QuickJSSandboxModule.getPropertyVal a "timeout" with
      | none =>
          simp [QuickJSSandboxModule.createRuntime,
            QuickJSSandboxModule.parseTimeout, QuickJSSandboxRuntime.create,
            hobj, hga]
      | some tv =>
          cases tv <;>
            first
            | exact absurd hga (hno _)
            | simp [QuickJSSandboxModule.createRuntime,
                QuickJSSandboxModule.parseTimeout,
                QuickJSSandboxRuntime.create, hobj, hga]
    · simp [QuickJSSandboxModule.createRuntime,
        QuickJSSandboxModule.parseTimeout, QuickJSSandboxRuntime.create,
        hobj]
  · cases hd : rt.disposed with
    | false => simp [QuickJSSandboxRuntime.createContext, hd, Except.map]
    | true => simp [QuickJSSandboxRuntime.createContext, hd, Except.map]
  · cases hd : rt.disposed with
    | false => simp [QuickJSSandboxRuntime.dispose, hd]
    | true => simp [QuickJSSandboxRuntime.dispose, hd]
  · intro i nm v
    cases hgi : rt.contexts[i]? with
    | none =>
        simp [QuickJSSandboxRuntime.setGlobalAt, List.get?_eq_getElem?,
          hgi, Except.map]
    | some c =>
        cases hsg : QuickJSSandboxContext.setGlobal
            ⟨c, rt.sandboxFuncCounter⟩ nm v with
        | error e =>
            simp [QuickJSSandboxRuntime.setGlobalAt, List.get?_eq_getElem?,
              hgi, hsg, Except.map]
        | ok st2 =>
            simp [QuickJSSandboxRuntime.setGlobalAt, List.get?_eq_getElem?,
              hgi, hsg, Except.map]
  · intro i nm
    cases hgi : rt.contexts[i]? with
    | none =>
        simp [QuickJSSandboxRuntime.getGlobalAt, List.get?_eq_getElem?,
          hgi, Except.map]
    | some c =>
        cases hsg : QuickJSSandboxContext.getGlobal
            ⟨c, rt.sandboxFuncCounter⟩ nm with
        | error e =>
            simp [QuickJSSandboxRuntime.getGlobalAt, List.get?_eq_getElem?,
              hgi, hsg, Except.map]
        | ok p =>
            simp [QuickJSSandboxRuntime.getGlobalAt, List.get?_eq_getElem?,
              hgi, hsg, Except.map]

/-- Witness for C9 at concrete inputs: the empty argument list, an options
object without a timeout property, a non-object options argument, and a
concrete runtime disposed under two different stored timeouts. -/
theorem c9_timeout_unused_witness :
    (QuickJSSandboxModule.createRuntime []).timeout = 30000 ∧
    (QuickJSSandboxModule.createRuntime [.object []]).timeout = 30000 ∧
    (QuickJSSandboxModule.createRuntime [.str "opts"]).timeout = 30000 ∧
    QuickJSSandboxRuntime.dispose
        { QuickJSSandboxRuntime.create 5 with timeout := 7 }
      = ({ (QuickJSSandboxRuntime.dispose
              (QuickJSSandboxRuntime.create 5)).1 with timeout := 7 },
         (QuickJSSandboxRuntime.dispose
           (QuickJSSandboxRuntime.create 5)).2) :=
  ⟨(c9_timeout_unused (.object []) [] (QuickJSSandboxRuntime.create 5) 7
      (fun q h => by
        simp [QuickJSSandboxModule.getPropertyVal, assocGet] at h)).1,
   (c9_timeout_unused (.object []) [] (QuickJSSandboxRuntime.create 5) 7
      (fun q h => by
        simp [QuickJSSandboxModule.getPropertyVal, assocGet] at h)).2.2.1,
   (c9_timeout_unused (.str "opts") [] (QuickJSSandboxRuntime.create 5) 7
      (fun q h => by
        simp [QuickJSSandboxModule.getPropertyVal] at h)).2.1 rfl,
   (c9_timeout_unused (.object []) [] (QuickJSSandboxRuntime.create 5) 7
      (fun q h => by
        simp [QuickJSSandboxModule.getPropertyVal, assocGet] at h)).2.2.2.2.1⟩

end QuickJSSandbox
